import Mathlib

/-
Verification of the drone-control module `src/parrot/parrot.py` of the
repository Drone-Cluttered-Object-Tracking: a shallow embedding of the
module's data model and operations, followed by theorems settling the
specification claims about it.

Modelling conventions:
  - Python floats (command speeds, the overlap fraction) are modelled as
    rationals; no floating-point rounding is relevant to any claim.
  - A blocking queue operation that cannot complete in the current state
    (a `put` on a full single-slot queue, a `get` on an empty one) is
    modelled as returning `none`: the calling thread is suspended and the
    operation has no effect yet.
  - Raised Python exceptions are modelled with `Except` / an explicit
    error component.
-/

/-- Pending-slot state of a Python `Queue.Queue(maxsize=1)`: the queue is
either empty or holds one unconsumed item.  Every channel created in
`parrot.py` (`image_queue`, `nav_queue`, `cmd_queue`, `remote_queue`) is
constructed with `maxsize=1`. -/
abbrev Queue1 (α : Type) : Type := Option α

/-- Blocking `put` of a Python `Queue.Queue` with `maxsize=1`: when the slot
is empty the item is stored and the call returns; when an unconsumed item is
already pending the producer blocks until a consumer removes it.  `none`
means the call cannot complete in the current state: the item is not stored
and the pending item is not replaced. -/
def Queue1.put {α : Type} (q : Queue1 α) (x : α) : Option (Queue1 α) :=
  match q with
  | none => some (some x)
  | some _ => none

/-- Blocking `get` of a Python `Queue.Queue`: when an item is pending it is
removed and returned; on an empty queue the caller blocks until a `put`
(`none` = cannot complete in the current state). -/
def Queue1.get {α : Type} (q : Queue1 α) : Option (α × Queue1 α) :=
  match q with
  | none => none
  | some x => some (x, none)

/-- Normalized drone command: the dict built in `Parrot.__init__` as
`default_cmd`, with lateral/longitudinal/vertical speeds X/Y/Z, yaw rate R,
active camera id C and the takeoff/land/stop flags T/L/S. -/
structure Command where
  X : ℚ
  Y : ℚ
  Z : ℚ
  R : ℚ
  C : ℤ
  T : Bool
  L : Bool
  S : Bool
deriving DecidableEq

/-- Neutral default command, the initial value of `self.default_cmd`. -/
def default_cmd : Command :=
  { X := 0, Y := 0, Z := 0, R := 0, C := 0, T := false, L := false, S := false }

/-- Serialized form of a command (`json.dumps(cmd)`).  The character-level
JSON text is not modelled; the serialization is kept as an injective wrapper
carrying exactly the command data, which is all any claim observes. -/
structure Json where
  val : Command
deriving DecidableEq

/-- JSON-serialize a command (`json.dumps`). -/
def json_dumps (c : Command) : Json := ⟨c⟩

/-- The part of the `Parrot` object state that the command-dispatch methods
read and write: the default-command template from `__init__` and the
outgoing command channel `self.cmd_queue = Queue.Queue(maxsize=1)` created
in `init_controller`. -/
structure Parrot where
  default_cmd : Command
  cmd_queue : Queue1 Json
deriving DecidableEq

/-- Common tail of every intent method: `cmd_json = json.dumps(cmd);
self.cmd_queue.put(cmd_json)`.  `none` when the blocking put cannot
complete (a command is already pending unconsumed). -/
def Parrot.enqueue (st : Parrot) (cmd : Command) : Option Parrot :=
  (Queue1.put st.cmd_queue (json_dumps cmd)).map (fun q => { st with cmd_queue := q })

/-- Method `Parrot.land`: `cmd = self.default_cmd.copy(); cmd['L'] = True`,
then serialize and put on the command channel. -/
def Parrot.land (st : Parrot) : Option Parrot :=
  Parrot.enqueue st { st.default_cmd with L := true }

/-- Method `Parrot.takeoff`: copy of the default with `T = True`. -/
def Parrot.takeoff (st : Parrot) : Option Parrot :=
  Parrot.enqueue st { st.default_cmd with T := true }

/-- Method `Parrot.stop`: copy of the default with `S = True` (the source
repeats the copy line twice; the effect is the same). -/
def Parrot.stop (st : Parrot) : Option Parrot :=
  Parrot.enqueue st { st.default_cmd with S := true }

/-- Method `Parrot.turn_left`: copy of the default with `R = -speed`. -/
def Parrot.turn_left (st : Parrot) (speed : ℚ) : Option Parrot :=
  Parrot.enqueue st { st.default_cmd with R := -speed }

/-- Method `Parrot.turn_right`: copy of the default with `R = speed`. -/
def Parrot.turn_right (st : Parrot) (speed : ℚ) : Option Parrot :=
  Parrot.enqueue st { st.default_cmd with R := speed }

/-- Method `Parrot.fly_up`: copy of the default with `Z = speed`. -/
def Parrot.fly_up (st : Parrot) (speed : ℚ) : Option Parrot :=
  Parrot.enqueue st { st.default_cmd with Z := speed }

/-- Method `Parrot.fly_down`: copy of the default with `Z = -speed`. -/
def Parrot.fly_down (st : Parrot) (speed : ℚ) : Option Parrot :=
  Parrot.enqueue st { st.default_cmd with Z := -speed }

/-- Method `Parrot.fly_forward`: copy of the default with `Y = speed`. -/
def Parrot.fly_forward (st : Parrot) (speed : ℚ) : Option Parrot :=
  Parrot.enqueue st { st.default_cmd with Y := speed }

/-- Method `Parrot.fly_backward`: copy of the default with `Y = -speed`. -/
def Parrot.fly_backward (st : Parrot) (speed : ℚ) : Option Parrot :=
  Parrot.enqueue st { st.default_cmd with Y := -speed }

/-- Method `Parrot.fly_left`: copy of the default with `X = -speed`. -/
def Parrot.fly_left (st : Parrot) (speed : ℚ) : Option Parrot :=
  Parrot.enqueue st { st.default_cmd with X := -speed }

/-- Method `Parrot.fly_right`: copy of the default with `X = speed`. -/
def Parrot.fly_right (st : Parrot) (speed : ℚ) : Option Parrot :=
  Parrot.enqueue st { st.default_cmd with X := speed }

/-- Exception data of `remote.RemoteError`: a severity flag (`warning`) and
a message, as read by `check_remote`. -/
structure RemoteErr where
  warning : Bool
  msg : String
deriving DecidableEq

/-- Python exceptions arising in the embedded functions. -/
inductive PyExc where
  | queueEmpty : PyExc
  | attributeError : String → PyExc
  | remoteError : RemoteErr → PyExc
  | boundingBoxError : PyExc
  | configurationError : PyExc
  | valueError : String → PyExc
  | assertionError : PyExc
deriving DecidableEq

/-- Attributes ever bound on a `Parrot` instance, collected from `__init__`
and the `init_*` methods of the source.  No attribute named `fly` is ever
bound. -/
def parrotAttrs : List String :=
  ["default_cmd", "address", "ports", "cameras", "active_camera",
   "window_size", "overlap", "image", "navdata", "tracking",
   "remote_queue", "remote_bucket", "remote", "cmd",
   "image_queue", "camera", "cmd_queue", "controller",
   "nav_queue", "receiver",
   "extractor_opt_flow", "extractor_hough_trans", "extractor_laws_mask",
   "extractor_cmd_history", "extractor_nav_history"]

/-- Attribute lookup on a `Parrot` instance: `none` models the
AttributeError Python raises for a name that is never bound. -/
def parrotAttr (a : String) : Option String :=
  if a ∈ parrotAttrs then some a else none

/-- Method `Parrot.change_camera`: its first statement reads
`self.fly.default_cmd`, and the lookup of the attribute `fly` on the
instance fails, raising AttributeError before anything is put on the
command channel.  The result pairs the (unchanged) state with the raised
error; the second branch embeds what the rest of the method would do were
the attribute found, and is unreachable. -/
def Parrot.change_camera (st : Parrot) (cam : ℤ) : Option (Parrot × Option PyExc) :=
  match parrotAttr "fly" with
  | none => some (st, some (PyExc.attributeError "fly"))
  | some _ =>
      let cmd := { st.default_cmd with C := cam }
      (Queue1.put st.cmd_queue (json_dumps cmd)).map
        (fun q => ({ st with cmd_queue := q }, none))

/-- Discrete pilot intents: one constructor per intent method. -/
inductive IntentOp where
  | land : IntentOp
  | takeoff : IntentOp
  | stop : IntentOp
  | turnLeft : ℚ → IntentOp
  | turnRight : ℚ → IntentOp
  | flyUp : ℚ → IntentOp
  | flyDown : ℚ → IntentOp
  | flyForward : ℚ → IntentOp
  | flyBackward : ℚ → IntentOp
  | flyLeft : ℚ → IntentOp
  | flyRight : ℚ → IntentOp
deriving DecidableEq

/-- The command an intent method builds from the current default template:
`self.default_cmd.copy()` plus that intent's single field override, read off
from each method body. -/
def intentCmd : IntentOp → Parrot → Command
  | IntentOp.land, st => { st.default_cmd with L := true }
  | IntentOp.takeoff, st => { st.default_cmd with T := true }
  | IntentOp.stop, st => { st.default_cmd with S := true }
  | IntentOp.turnLeft s, st => { st.default_cmd with R := -s }
  | IntentOp.turnRight s, st => { st.default_cmd with R := s }
  | IntentOp.flyUp s, st => { st.default_cmd with Z := s }
  | IntentOp.flyDown s, st => { st.default_cmd with Z := -s }
  | IntentOp.flyForward s, st => { st.default_cmd with Y := s }
  | IntentOp.flyBackward s, st => { st.default_cmd with Y := -s }
  | IntentOp.flyLeft s, st => { st.default_cmd with X := -s }
  | IntentOp.flyRight s, st => { st.default_cmd with X := s }

/-- Dispatch an intent to the corresponding method of the embedding. -/
def applyIntent : IntentOp → Parrot → Option Parrot
  | IntentOp.land, st => Parrot.land st
  | IntentOp.takeoff, st => Parrot.takeoff st
  | IntentOp.stop, st => Parrot.stop st
  | IntentOp.turnLeft s, st => Parrot.turn_left st s
  | IntentOp.turnRight s, st => Parrot.turn_right st s
  | IntentOp.flyUp s, st => Parrot.fly_up st s
  | IntentOp.flyDown s, st => Parrot.fly_down st s
  | IntentOp.flyForward s, st => Parrot.fly_forward st s
  | IntentOp.flyBackward s, st => Parrot.fly_backward st s
  | IntentOp.flyLeft s, st => Parrot.fly_left st s
  | IntentOp.flyRight s, st => Parrot.fly_right st s

/-- Operations touching the command channel: an intent call by the pilot
side, or the controller thread consuming the pending command via
`cmd_queue.get`. -/
inductive POp where
  | intent : IntentOp → POp
  | consume : POp
deriving DecidableEq

/-- One step on the command channel state. -/
def stepOp : POp → Parrot → Option Parrot
  | POp.intent i, st => applyIntent i st
  | POp.consume, st =>
      (Queue1.get st.cmd_queue).map (fun p => { st with cmd_queue := p.2 })

/-- Run a sequence of command-channel operations; `none` when some step
blocks. -/
def runOps : List POp → Parrot → Option Parrot
  | [], st => some st
  | op :: l, st => (stepOp op st).bind (runOps l)

/-- Module-level attributes of the Python 2 `Queue` module: the queue
classes and the `Empty` and `Full` exception classes.  There is no
attribute named `empty`. -/
def queueModuleAttrs : List String :=
  ["Queue", "LifoQueue", "PriorityQueue", "Empty", "Full"]

/-- Attribute lookup on the `Queue` module. -/
def queueModuleAttr (a : String) : Option String :=
  if a ∈ queueModuleAttrs then some a else none

/-- Method `Parrot.check_remote`, over the observable inputs it reads:
`alive` is `self.remote.isAlive()` and `bucket` the state of the error
channel `self.remote_bucket`.  The try block runs
`error = self.remote_bucket.get(block=False); raise error`, so it always
raises: `Queue.Empty` when the bucket is empty, else the drained error
object.  The first handler clause is `except Queue.empty`, and evaluating
it looks up the non-existent attribute `empty` on the `Queue` module, which
raises AttributeError while the original exception is being handled.  The
result is the list of lines printed paired with the returned value or the
exception that escapes; the second branch embeds the handler chain as it
would run had the attribute lookup named `Queue.Empty`, and is
unreachable. -/
def check_remote (alive : Bool) (bucket : Queue1 RemoteErr) :
    List String × Except PyExc Bool :=
  let okay := alive
  let raised : PyExc :=
    match bucket with
    | none => PyExc.queueEmpty
    | some e => PyExc.remoteError e
  match queueModuleAttr "empty" with
  | none => ([], Except.error (PyExc.attributeError "empty"))
  | some _ =>
      match raised with
      | PyExc.queueEmpty => ([], Except.ok okay)
      | PyExc.remoteError e =>
          if e.warning then ([e.msg], Except.ok okay)
          else ([], Except.error (PyExc.remoteError e))
      | ex => ([], Except.error ex)

/-- A video frame: a 2-D pixel array, stored row-major as a list of rows. -/
structure Frame where
  data : List (List ℕ)
deriving DecidableEq

/-- Height of a frame (number of rows, numpy `shape[0]`). -/
def Frame.h (f : Frame) : ℕ := f.data.length

/-- Width of a frame (length of the first row, numpy `shape[1]`; frames are
rectangular). -/
def Frame.w (f : Frame) : ℕ := f.data.headI.length

/-- Dimensions of a frame as numpy reports them: (rows, cols). -/
def frameDims (f : Frame) : ℕ × ℕ := (f.h, f.w)

/-- NumPy-style slice `image[y0:y1, x0:x1]`, as used on the window
rectangles (out-of-range bounds clip, as in numpy). -/
def Frame.slice (f : Frame) (x0 x1 y0 y1 : ℕ) : Frame :=
  ⟨((f.data.drop y0).take (y1 - y0)).map (fun row => (row.drop x0).take (x1 - x0))⟩

/-- Modelled from the spec: the deterministic resample-to-size capability of
the collaborating image-processing library (`cv2.resize`), which is not
part of this repository; here nearest-neighbour sampling.  `w` and `h` are
the target width and height — cv2 takes a (width, height) size, which is
why the call site passes the numpy shape reversed. -/
def cv2_resize (f : Frame) (w h : ℕ) : Frame :=
  ⟨(List.range h).map (fun y => (List.range w).map (fun x =>
      (f.data.getD (y * f.h / h) []).getD (x * f.w / w) 0))⟩

/-- Feature-extraction parameters from `Parrot.__init__`:
`self.window_size = (15, 7)`, read as (columns, rows). -/
def window_size : ℕ × ℕ := (15, 7)

/-- Overlap fraction from `Parrot.__init__`: `self.overlap = 0.5`. -/
def overlap : ℚ := 1 / 2

/-- Modelled from the spec: `camera.Camera.get_windows` (module `camera.py`
is not among the sources).  Spec section 4.3: for grid shape (C, R) and
overlap fraction f, C times R rectangles such that adjacent windows along
each axis overlap by fraction f of the nominal window size, with trailing
windows clipped to stay inside the frame.  Entry `(windows r) c` is the
rectangle (x0, x1, y0, y1), used by the callers as `image[y0:y1, x0:x1]`. -/
def get_windows (img : Frame) (size : ℕ × ℕ) (f : ℚ) :
    List (List (ℕ × ℕ × ℕ × ℕ)) :=
  let C := size.1
  let R := size.2
  let wnom : ℚ := (img.w : ℚ) / (1 + ((C : ℚ) - 1) * (1 - f))
  let hnom : ℚ := (img.h : ℚ) / (1 + ((R : ℚ) - 1) * (1 - f))
  (List.range R).map (fun r =>
    (List.range C).map (fun c =>
      let x0 : ℚ := (c : ℚ) * (1 - f) * wnom
      let y0 : ℚ := (r : ℚ) * (1 - f) * hnom
      let x1 : ℚ := min (x0 + wnom) ((img.w : ℚ))
      let y1 : ℚ := min (y0 + hnom) ((img.h : ℚ))
      ((Int.floor x0).toNat, (Int.floor x1).toNat,
       (Int.floor y0).toNat, (Int.floor y1).toNat)))

/-- The three visual feature extractors driven by the window loop of
`get_visual_features`. -/
inductive ExtId where
  | optFlow : ExtId
  | hough : ExtId
  | laws : ExtId
deriving DecidableEq

/-- Modelled from the spec: each feature extractor declares a fixed output
dimensionality and its `extract` returns a feature vector of that length
(its numerical content is explicitly out of scope, spec sections 1 and 6;
the `feature_extraction` modules are not among the sources). -/
def ext_extract (dims : ExtId → ℕ) (e : ExtId) (_w : Frame) : List ℚ :=
  List.replicate (dims e) 0

/-- Per-window body of the loop in `get_visual_features`, reified as the
sequence of (extractor, window) extract invocations it performs: the sliced
window is first resized by
`cv2.resize(cur_window, self.extractor_opt_flow.shape[::-1])` — the target
is always the optical-flow extractor's expected shape
`optShape = (rows, cols)`, whatever extractor is about to run — and that
same resized window is then passed to the optical-flow, Hough-transform and
Laws-mask extract calls in turn. -/
def process_window (optShape : ℕ × ℕ) (cur_window : Frame) :
    List (ExtId × Frame) :=
  let cur := cv2_resize cur_window optShape.2 optShape.1
  [(ExtId.optFlow, cur), (ExtId.hough, cur), (ExtId.laws, cur)]

/-- A stacked feature matrix (list of rows). -/
abbrev FeatureMatrix := List (List ℚ)

/-- Accumulation pattern `m = np.vstack((m, v)) if m.size else v` from the
window loop: an empty accumulator is replaced by the new row vector;
otherwise `np.vstack` requires the widths to agree and appends, raising
ValueError on a mismatch. -/
def stackRow (m : FeatureMatrix) (v : List ℚ) : Except PyExc FeatureMatrix :=
  if m.isEmpty then Except.ok [v]
  else if m.headI.length = v.length then Except.ok (m ++ [v])
  else Except.error (PyExc.valueError "vstack")

/-- The trailing pattern `a = np.vstack((a, b)) if a.size else b` on two
stacked matrices. -/
def stackMat (a b : FeatureMatrix) : Except PyExc FeatureMatrix :=
  if a.isEmpty then Except.ok b
  else if a.headI.length = b.headI.length then Except.ok (a ++ b)
  else Except.error (PyExc.valueError "vstack")

/-- The window loop and trailing stacking of `get_visual_features`: iterate
the grid row-major, slice each window, resize it to the optical-flow
extractor's shape, extract the three feature vectors and accumulate each
extractor's rows; finally vstack the three blocks and transpose.  In the
source this code is unreachable — the misspelled array constructors raise
before the loop — but it is embedded for fidelity. -/
def visual_features_loop (optShape : ℕ × ℕ) (dims : ExtId → ℕ) (image : Frame)
    (windows : List (List (ℕ × ℕ × ℕ × ℕ))) : Except PyExc FeatureMatrix := do
  let idxs := ((List.range window_size.2).map (fun r =>
      (List.range window_size.1).map (fun c => (r, c)))).flatten
  let acc ← idxs.foldlM (fun acc rc => do
      let wrect := (windows.getD rc.1 []).getD rc.2 (0, 0, 0, 0)
      let cur_window := image.slice wrect.1 wrect.2.1 wrect.2.2.1 wrect.2.2.2
      let cur := cv2_resize cur_window optShape.2 optShape.1
      let mf ← stackRow acc.1 (ext_extract dims ExtId.optFlow cur)
      let mh ← stackRow acc.2.1 (ext_extract dims ExtId.hough cur)
      let ml ← stackRow acc.2.2 (ext_extract dims ExtId.laws cur)
      pure (mf, mh, ml))
    (([], [], []) : FeatureMatrix × FeatureMatrix × FeatureMatrix)
  let all1 ← stackMat [] acc.1
  let all2 ← stackMat all1 acc.2.1
  let all3 ← stackMat all2 acc.2.2
  pure all3.transpose

/-- Attributes of the numpy module that the source module references.  Only
the correctly spelled `array` exists: `arrary` and `arry`, as written on
the second and third accumulator initializations of `get_visual_features`,
are misspellings whose lookup raises AttributeError. -/
def np_attrs : List String := ["array", "vstack", "transpose", "savetxt"]

/-- Attribute lookup on the numpy module: `Except.error` models the
AttributeError raised for a name the module does not define. -/
def np_attr (a : String) : Except PyExc Unit :=
  if a ∈ np_attrs then Except.ok () else Except.error (PyExc.attributeError a)

/-- Method `Parrot.get_visual_features`: computes the window grid of the
current image, then initializes the four feature accumulators with
`np.array([])`, `np.arrary([])`, `np.arry([])`, `np.array([])` — the second
and third misspell `array`, so the attribute lookup on the numpy module
raises AttributeError before the window loop is ever entered.  `optShape`
is the optical-flow extractor's expected input shape and `dims` the
extractors' declared output dimensionalities (spec-modelled, the extractor
modules being absent from the sources). -/
def get_visual_features (optShape : ℕ × ℕ) (dims : ExtId → ℕ) (image : Frame) :
    Except PyExc FeatureMatrix := do
  let windows := get_windows image window_size overlap
  np_attr "array"
  np_attr "arrary"
  np_attr "arry"
  np_attr "array"
  visual_features_loop optShape dims image windows

/-- Tracking state produced by the tracker: opaque per spec section 3, here
the seeding frame and the two corner points. -/
structure TrackingState where
  frame : Frame
  corner1 : ℤ × ℤ
  corner2 : ℤ × ℤ
deriving DecidableEq

/-- Modelled from the spec: `cam_shift.CamShift(image, p0, p1)` (module
`tracking/cam_shift.py` is not among the sources).  Spec section 6: the
tracker init fails with a classified configuration error if the two corners
do not form a valid (non-degenerate) rectangle — that is, when the corners
agree on either coordinate. -/
def camShift_init (img : Frame) (p0 p1 : List ℤ) : Except PyExc TrackingState :=
  match p0, p1 with
  | [x0, y0], [x1, y1] =>
      if x0 = x1 ∨ y0 = y1 then Except.error PyExc.configurationError
      else Except.ok ⟨img, (x0, y0), (x1, y1)⟩
  | _, _ => Except.error PyExc.configurationError

/-- Method `Parrot.init_tracking`: asserts that the camera is initialized
(`self.image is not None`), raises BoundingBoxError when the bounding box
is None, when its length is not 2, and when either of its two points does
not have length 2; otherwise constructs the CamShift tracker from the image
and the two corners. -/
def init_tracking (image : Option Frame) (bound_box : Option (List (List ℤ))) :
    Except PyExc TrackingState :=
  match image with
  | none => Except.error PyExc.assertionError
  | some img =>
    match bound_box with
    | none => Except.error PyExc.boundingBoxError
    | some bb =>
      match bb with
      | [p0, p1] =>
          if p0.length ≠ 2 ∨ p1.length ≠ 2 then Except.error PyExc.boundingBoxError
          else camShift_init img p0 p1
      | _ => Except.error PyExc.boundingBoxError

/-- Every intent method leaves the default-command template unchanged,
whether or not its blocking put completes. -/
theorem applyIntent_default_cmd (i : IntentOp) (st : Parrot) :
    ((applyIntent i st).getD st).default_cmd = st.default_cmd := by
  obtain ⟨dc, q⟩ := st
  cases q <;> cases i <;> rfl

/-- The command an intent call builds depends only on the default-command
template of the state it runs in. -/
theorem intentCmd_default (i : IntentOp) (st1 st2 : Parrot)
    (h : st1.default_cmd = st2.default_cmd) : intentCmd i st1 = intentCmd i st2 := by
  cases i <;> simp [intentCmd, h]

/-- One completed command-channel step preserves the default template. -/
theorem stepOp_default_cmd (op : POp) (st st' : Parrot)
    (h : stepOp op st = some st') : st'.default_cmd = st.default_cmd := by
  cases op with
  | intent i =>
      have h2 := applyIntent_default_cmd i st
      simp only [stepOp] at h
      rw [h] at h2
      simpa using h2
  | consume =>
      obtain ⟨dc, q⟩ := st
      cases q with
      | none => simp [stepOp, Queue1.get] at h
      | some j =>
          simp [stepOp, Queue1.get] at h
          subst h
          rfl

/-- A completed run of command-channel operations preserves the default
template. -/
theorem runOps_default_cmd (l : List POp) :
    ∀ st st' : Parrot, runOps l st = some st' → st'.default_cmd = st.default_cmd := by
  induction l with
  | nil =>
      intro st st' h
      simp only [runOps, Option.some.injEq] at h
      subst h
      rfl
  | cons op l ih =>
      intro st st' h
      simp only [runOps, Option.bind_eq_some] at h
      obtain ⟨st1, h1, h2⟩ := h
      rw [ih st1 st' h2, stepOp_default_cmd op st st1 h1]

/-- A resampled frame has exactly the requested height and width (height
positive). -/
theorem cv2_resize_dims (f : Frame) (w h : ℕ) (hh : 0 < h) :
    frameDims (cv2_resize f w h) = (h, w) := by
  rcases h with _ | n
  · exact absurd hh (by simp)
  · simp [frameDims, cv2_resize, Frame.h, Frame.w, List.range_succ_eq_map]

/-- C1, counterexample: on the size-one `Queue.Queue` every channel is built
from, `put(a); put(b)` with no intervening `get()` does not leave `b` for
the next `get()`: the second `put` blocks (cannot complete, nothing is
replaced), and a `get()` at that point returns `a`, not `b`. -/
theorem C1_counterexample :
    Queue1.put (none : Queue1 ℕ) 0 = some (some 0) ∧
    Queue1.put (some 0 : Queue1 ℕ) 1 = none ∧
    Queue1.get (some 0 : Queue1 ℕ) = some (0, none) ∧
    (0 : ℕ) ≠ 1 :=
  ⟨rfl, rfl, rfl, by decide⟩

/-- C1, amended: a `put` into an empty channel succeeds at once and a
subsequent `get` returns exactly that item; a `put` while an unconsumed item
is pending blocks until the item is consumed — nothing is replaced or
discarded; a `get` on an empty channel blocks until the first `put`.  In
particular an intent call such as `land` completes only when no command is
pending, and then the pending slot holds its serialized command. -/
theorem C1_theorem (x y : ℤ) (c : Command) (j : Json) :
    Queue1.put (none : Queue1 ℤ) x = some (some x) ∧
    Queue1.put (some x) y = none ∧
    Queue1.get (none : Queue1 ℤ) = none ∧
    Queue1.get (some x) = some (x, none) ∧
    Parrot.land ⟨c, none⟩ = some ⟨c, some (json_dumps { c with L := true })⟩ ∧
    Parrot.land ⟨c, some j⟩ = none :=
  ⟨rfl, rfl, rfl, rfl, rfl, rfl⟩

/-- C2: `get_visual_features` never returns a feature matrix — for every
frame and every extractor configuration it raises AttributeError from the
misspelled `np.arrary` before the window loop runs. -/
theorem C2_theorem (optShape : ℕ × ℕ) (dims : ExtId → ℕ) (image : Frame) :
    get_visual_features optShape dims image =
      Except.error (PyExc.attributeError "arrary") := rfl

/-- C3: with no pending error on the error channel, the poll does not pass
quietly and return the liveness flag — handling the expected `Queue.Empty`
evaluates the misnamed handler clause `except Queue.empty` and raises
AttributeError, whatever the liveness flag is, and nothing is printed. -/
theorem C3_theorem (alive : Bool) :
    check_remote alive none = ([], Except.error (PyExc.attributeError "empty")) := rfl

/-- C4: with a pending classified error in the error channel, the poll
neither prints a warning nor re-raises a fatal error as itself: evaluating
the broken handler clause raises AttributeError for every drained error,
warning or fatal. -/
theorem C4_theorem (alive : Bool) (e : RemoteErr) :
    check_remote alive (some e) =
      ([], Except.error (PyExc.attributeError "empty")) := rfl

/-- C5: on a state holding the neutral default template with an empty
channel, each of the eleven intent methods enqueues exactly the neutral
command with its own field overridden (turn_left with yaw rate `-s`, land
with the land flag, and so on); and the command a second intent call builds
is unaffected by whichever intent call preceded it. -/
theorem C5_theorem (s : ℚ) (i1 i2 : IntentOp) (st : Parrot) :
    Parrot.land ⟨default_cmd, none⟩ =
      some ⟨default_cmd, some (json_dumps ⟨0, 0, 0, 0, 0, false, true, false⟩)⟩ ∧
    Parrot.takeoff ⟨default_cmd, none⟩ =
      some ⟨default_cmd, some (json_dumps ⟨0, 0, 0, 0, 0, true, false, false⟩)⟩ ∧
    Parrot.stop ⟨default_cmd, none⟩ =
      some ⟨default_cmd, some (json_dumps ⟨0, 0, 0, 0, 0, false, false, true⟩)⟩ ∧
    Parrot.turn_left ⟨default_cmd, none⟩ s =
      some ⟨default_cmd, some (json_dumps ⟨0, 0, 0, -s, 0, false, false, false⟩)⟩ ∧
    Parrot.turn_right ⟨default_cmd, none⟩ s =
      some ⟨default_cmd, some (json_dumps ⟨0, 0, 0, s, 0, false, false, false⟩)⟩ ∧
    Parrot.fly_up ⟨default_cmd, none⟩ s =
      some ⟨default_cmd, some (json_dumps ⟨0, 0, s, 0, 0, false, false, false⟩)⟩ ∧
    Parrot.fly_down ⟨default_cmd, none⟩ s =
      some ⟨default_cmd, some (json_dumps ⟨0, 0, -s, 0, 0, false, false, false⟩)⟩ ∧
    Parrot.fly_forward ⟨default_cmd, none⟩ s =
      some ⟨default_cmd, some (json_dumps ⟨0, s, 0, 0, 0, false, false, false⟩)⟩ ∧
    Parrot.fly_backward ⟨default_cmd, none⟩ s =
      some ⟨default_cmd, some (json_dumps ⟨0, -s, 0, 0, 0, false, false, false⟩)⟩ ∧
    Parrot.fly_left ⟨default_cmd, none⟩ s =
      some ⟨default_cmd, some (json_dumps ⟨-s, 0, 0, 0, 0, false, false, false⟩)⟩ ∧
    Parrot.fly_right ⟨default_cmd, none⟩ s =
      some ⟨default_cmd, some (json_dumps ⟨s, 0, 0, 0, 0, false, false, false⟩)⟩ ∧
    intentCmd i2 ((applyIntent i1 st).getD st) = intentCmd i2 st := by
  refine ⟨rfl, rfl, rfl, rfl, rfl, rfl, rfl, rfl, rfl, rfl, rfl, ?_⟩
  exact intentCmd_default i2 _ _ (applyIntent_default_cmd i1 st)

/-- C9: the default-command template is never mutated — any sequence of
intent calls (interleaved with the controller thread consuming pending
commands) that completes from the initial state leaves the template equal
to the neutral default. -/
theorem C9_theorem (l : List POp) (st' : Parrot)
    (h : runOps l ⟨default_cmd, none⟩ = some st') :
    st'.default_cmd = default_cmd :=
  runOps_default_cmd l ⟨default_cmd, none⟩ st' h

/-- C9 witness: a concrete completed run — land, the controller consuming
the pending command, then a left turn — leaves the template neutral. -/
theorem C9_witness :
    (⟨default_cmd, some (json_dumps ⟨0, 0, 0, -2, 0, false, false, false⟩)⟩ :
        Parrot).default_cmd = default_cmd :=
  C9_theorem [POp.intent IntentOp.land, POp.consume, POp.intent (IntentOp.turnLeft 2)]
    ⟨default_cmd, some (json_dumps ⟨0, 0, 0, -2, 0, false, false, false⟩)⟩ rfl

/-- C10: for every camera id, `change_camera` raises AttributeError on the
read of the unbound attribute `fly` before reaching the channel put, and
returns with the state — in particular the command channel — unchanged. -/
theorem C10_theorem (st : Parrot) (cam : ℤ) :
    Parrot.change_camera st cam = some (st, some (PyExc.attributeError "fly")) := rfl

/-- Concrete one-pixel frame used to instantiate the tracking theorems. -/
def frame0 : Frame := ⟨[[0]]⟩

/-- C6, counterexample: the bounding box [[0,0],[0,5]] consists of two 2-D
corner points with corner1 different from corner2, yet `init_tracking`
raises a classified configuration error instead of succeeding — the two
corners agree on the x coordinate, so they span a degenerate rectangle. -/
theorem C6_counterexample :
    init_tracking (some frame0) (some [[0, 0], [0, 5]]) =
      Except.error PyExc.configurationError ∧
    ([0, 0] : List ℤ) ≠ [0, 5] ∧
    ([0, 0] : List ℤ).length = 2 ∧ ([0, 5] : List ℤ).length = 2 :=
  ⟨rfl, by decide, rfl, rfl⟩

/-- C6, amended: tracker initialization raises BoundingBoxError when the
bounding box is None, when it is not a two-element sequence, and when
either of its two points is not of length 2; given an initialized camera
frame, a well-formed box of two 2-D corner points whose corners differ in
both coordinates (a non-degenerate rectangle) succeeds. -/
theorem C6_theorem (img : Frame) (l : List (List ℤ)) (p0 p1 : List ℤ)
    (x0 y0 x1 y1 : ℤ) :
    init_tracking (some img) none = Except.error PyExc.boundingBoxError ∧
    (l.length ≠ 2 →
      init_tracking (some img) (some l) = Except.error PyExc.boundingBoxError) ∧
    (p0.length ≠ 2 ∨ p1.length ≠ 2 →
      init_tracking (some img) (some [p0, p1]) = Except.error PyExc.boundingBoxError) ∧
    (x0 ≠ x1 → y0 ≠ y1 →
      init_tracking (some img) (some [[x0, y0], [x1, y1]]) =
        Except.ok ⟨img, (x0, y0), (x1, y1)⟩) := by
  refine ⟨rfl, ?_, ?_, ?_⟩
  · intro h
    rcases l with _ | ⟨a, _ | ⟨b, _ | ⟨c, rest⟩⟩⟩
    · rfl
    · rfl
    · exact absurd rfl h
    · rfl
  · intro h
    simp only [init_tracking]
    rw [if_pos h]
  · intro hx hy
    simp only [init_tracking, camShift_init]
    rw [if_neg (by simp), if_neg (not_or.mpr ⟨hx, hy⟩)]

/-- C6 witness: a one-point box and a box with a one-coordinate second point
are rejected, and the box [[0,0],[3,4]] succeeds. -/
theorem C6_witness :
    init_tracking (some frame0) (some [[0, 0]]) = Except.error PyExc.boundingBoxError ∧
    init_tracking (some frame0) (some [[0, 0], [1]]) =
      Except.error PyExc.boundingBoxError ∧
    init_tracking (some frame0) (some [[0, 0], [3, 4]]) =
      Except.ok ⟨frame0, (0, 0), (3, 4)⟩ := by
  obtain ⟨h1, h2, h3, h4⟩ := C6_theorem frame0 [[0, 0]] [0, 0] [1] 0 0 3 4
  exact ⟨h2 (by decide), h3 (by decide), h4 (by decide) (by decide)⟩

/-- C7: whenever the two 2-D corner points fail to span a non-degenerate
rectangle — they agree on the x coordinate or on the y coordinate, in
particular whenever the two corners are equal — `init_tracking` raises a
classified configuration error instead of constructing a tracking state. -/
theorem C7_theorem (img : Frame) (x0 y0 x1 y1 : ℤ) (h : x0 = x1 ∨ y0 = y1) :
    init_tracking (some img) (some [[x0, y0], [x1, y1]]) =
      Except.error PyExc.configurationError := by
  simp only [init_tracking, camShift_init]
  rw [if_neg (by simp), if_pos h]

/-- C7 witness: the box whose two corners are both (2,3) is rejected. -/
theorem C7_witness :
    init_tracking (some frame0) (some [[2, 3], [2, 3]]) =
      Except.error PyExc.configurationError :=
  C7_theorem frame0 2 3 2 3 (Or.inl rfl)

/-- Concrete 8-by-8 clipped border window used in the C8 instances. -/
def cexWin : Frame := ⟨List.replicate 8 (List.replicate 8 0)⟩

/-- Declared expected input shapes used in the C8 counterexample: the
optical-flow extractor declares (10,10) while the Hough extractor declares
(5,5) (spec-modelled declarations, the extractor modules being absent). -/
def cexShape : ExtId → ℕ × ℕ
  | ExtId.hough => (5, 5)
  | _ => (10, 10)

/-- C8, counterexample: an 8-by-8 sliced border window, whose dimensions
differ from the Hough extractor's declared expected size (5,5), is passed
to the Hough extract call resampled to the optical-flow extractor's shape
(10,10) — not to the Hough extractor's own expected input size. -/
theorem C8_counterexample :
    (ExtId.hough, cv2_resize cexWin 10 10) ∈
      process_window (cexShape ExtId.optFlow) cexWin ∧
    frameDims cexWin ≠ cexShape ExtId.hough ∧
    frameDims (cv2_resize cexWin 10 10) ≠ cexShape ExtId.hough := by
  decide

/-- C8, amended: every extract invocation of the window loop receives the
sliced window resampled to the optical-flow extractor's expected input
shape — one shared target size for all three extractors, not each
extractor's own declared size. -/
theorem C8_theorem (optShape : ℕ × ℕ) (cur_window : Frame) (e : ExtId) (w : Frame)
    (hpos : 0 < optShape.1)
    (hm : (e, w) ∈ process_window optShape cur_window) :
    frameDims w = optShape := by
  have hdims := cv2_resize_dims cur_window optShape.2 optShape.1 hpos
  simp only [process_window, List.mem_cons, List.not_mem_nil, or_false,
    Prod.mk.injEq] at hm
  rcases hm with ⟨he, hw⟩ | ⟨he, hw⟩ | ⟨he, hw⟩ <;> subst hw <;>
    simpa using hdims

/-- C8 witness: in the counterexample configuration the optical-flow
invocation receives the window concretely resampled to (10,10). -/
theorem C8_witness : frameDims (cv2_resize cexWin 10 10) = (10, 10) :=
  C8_theorem (10, 10) cexWin ExtId.optFlow (cv2_resize cexWin 10 10)
    (by decide) (by decide)
